import Mathlib

/-!
Verification of the real-time e-commerce analytics stream aggregation engine.

The definitions below are a shallow embedding of the Python sources:
  - `SessionAggregator.process_event` and `SessionAggregator.process_window`
    from `src/streaming/flink_jobs/session_aggregator.py`;
  - the `Window` store from `src/streaming/flink_jobs/stream_processor_base.py`;
  - `MLInferenceService.call_ml_api` from
    `src/streaming/flink_jobs/ml_inference_service.py`.

Timestamps are modelled as integers (seconds), Python floats as exact
rationals, and Python `round` as round-half-to-even on rationals.
-/

namespace Ecommerce

/-- One Kafka user event, as read by `SessionAggregator.process_event`.
Only the payload fields that the aggregator inspects are modelled.
`Option` fields model keys possibly absent from the JSON dict. -/
inductive Event where
  | session_start (timestamp : Int) (persona : Option String)
  | page_view
  | product_view (product_id : Option String)
  | add_to_cart (price : Rat) (quantity : Rat)
  | remove_from_cart (price : Rat) (quantity : Rat)
  | search
  | checkout_initiated
  | purchase (cart_value : Rat)
  | cart_abandoned (reason : Option String) (time_in_cart_seconds : Int)
  | session_end
  deriving DecidableEq

/-- The per-session accumulator entry of `SessionAggregator.session_metrics`. -/
structure Metrics where
  page_views : Nat
  products_viewed : Finset String
  cart_additions : Nat
  cart_removals : Nat
  searches : Nat
  cart_value : Rat
  is_converted : Bool
  purchase_value : Rat
  is_cart_abandoned : Bool
  abandonment_reason : Option String
  time_in_cart_seconds : Int
  checkout_initiated : Bool
  persona : Option String
  deriving DecidableEq

/-- The defaultdict initial value for a fresh session's metrics. -/
def initMetrics : Metrics :=
  { page_views := 0
    products_viewed := ∅
    cart_additions := 0
    cart_removals := 0
    searches := 0
    cart_value := 0
    is_converted := false
    purchase_value := 0
    is_cart_abandoned := false
    abandonment_reason := none
    time_in_cart_seconds := 0
    checkout_initiated := false
    persona := none }

/-- Per-session state: the recorded start time (`session_starts[session_id]`)
and the metrics accumulator (`session_metrics[session_id]`). -/
structure SessionState where
  start : Option Int
  metrics : Metrics
  deriving DecidableEq

/-- Fresh session state before any event is folded. -/
def initSession : SessionState := { start := none, metrics := initMetrics }

/-- Python truthiness of an optional string: `None` and the empty string
are falsy, every other string is truthy. -/
def truthyStr (s : Option String) : Bool :=
  match s with
  | none => false
  | some s => !s.isEmpty

/-- `SessionAggregator.process_event`, restricted to one session's state.
Mirrors the event-type dispatch of the Python method: on `session_start` the
start time is recorded and, if the event carries a truthy persona, the
persona field is assigned (unconditionally, with no already-set check). -/
def processEvent (s : SessionState) (e : Event) : SessionState :=
  match e with
  | .session_start ts p =>
      let s := { s with start := some ts }
      if truthyStr p then { s with metrics := { s.metrics with persona := p } } else s
  | .page_view =>
      { s with metrics := { s.metrics with page_views := s.metrics.page_views + 1 } }
  | .product_view pid =>
      match pid with
      | some pid =>
          if pid.isEmpty then s
          else { s with metrics :=
            { s.metrics with products_viewed := insert pid s.metrics.products_viewed } }
      | none => s
  | .add_to_cart price quantity =>
      { s with metrics := { s.metrics with
          cart_additions := s.metrics.cart_additions + 1
          cart_value := s.metrics.cart_value + price * quantity } }
  | .remove_from_cart price quantity =>
      { s with metrics := { s.metrics with
          cart_removals := s.metrics.cart_removals + 1
          cart_value := max 0 (s.metrics.cart_value - price * quantity) } }
  | .search =>
      { s with metrics := { s.metrics with searches := s.metrics.searches + 1 } }
  | .checkout_initiated =>
      { s with metrics := { s.metrics with checkout_initiated := true } }
  | .purchase cv =>
      { s with metrics := { s.metrics with is_converted := true, purchase_value := cv } }
  | .cart_abandoned reason t =>
      { s with metrics := { s.metrics with
          is_cart_abandoned := true
          abandonment_reason := reason
          time_in_cart_seconds := t } }
  | .session_end => s

/-- Folding a whole event sequence for one session through `process_event`. -/
def foldEvents (s : SessionState) (events : List Event) : SessionState :=
  events.foldl processEvent s

example :
    (foldEvents initSession
      [Event.session_start 0 (some "A"), Event.session_start 1 (some "B")]).metrics.persona
      = some "B" := rfl

example :
    (foldEvents initSession
      [Event.add_to_cart 10 2, Event.remove_from_cart 10 5]).metrics.cart_value = 0 := by
  norm_num [foldEvents, processEvent, initSession, initMetrics]

/-- One entry of the `Window` store's per-key deque: the stored event together
with its insertion timestamp (`datetime.now` at `add_event` time). -/
structure WEntry (α : Type) where
  event : α
  timestamp : Int
  deriving DecidableEq

/-- The `Window` store of `stream_processor_base.py`: a window duration and
the per-key deques, modelled as an association list keyed by strings
(mirroring the `defaultdict(deque)`). -/
structure Window (α : Type) where
  duration : Int
  data : List (String × List (WEntry α))
  deriving DecidableEq

/-- Reading `self.data[key]` for inspection: the key's deque, or the empty
deque a `defaultdict` would produce for an absent key. -/
def lookupD {α : Type} : List (String × List (WEntry α)) → String → List (WEntry α)
  | [], _ => []
  | (k', v) :: rest, k => if k' = k then v else lookupD rest k

/-- Writing `self.data[key] = v` into the `defaultdict`: replace the value of
an existing key, or append a fresh binding for an absent one. -/
def setKey {α : Type} : List (String × List (WEntry α)) → String → List (WEntry α) →
    List (String × List (WEntry α))
  | [], k, v => [(k, v)]
  | (k', v') :: rest, k, v =>
      if k' = k then (k', v) :: rest else (k', v') :: setKey rest k v

/-- `Window._cleanup_expired`: pop entries from the front of the deque while
the front entry's timestamp is strictly before `now - duration`. -/
def cleanupExpired {α : Type} (duration now : Int) (l : List (WEntry α)) : List (WEntry α) :=
  l.dropWhile (fun en => decide (en.timestamp < now - duration))

/-- `Window.add_event`: append the event stamped with the current time `now`,
then purge expired entries for that key. -/
def addEvent {α : Type} (w : Window α) (k : String) (e : α) (now : Int) : Window α :=
  let l := lookupD w.data k ++ [⟨e, now⟩]
  { w with data := setKey w.data k (cleanupExpired w.duration now l) }

/-- `Window.get_window_data`: purge expired entries for the key at the current
time `now`, store the purged deque back, and return the surviving events in
deque order. The returned pair is (events, updated window). -/
def getWindowData {α : Type} (w : Window α) (k : String) (now : Int) :
    List α × Window α :=
  let l := cleanupExpired w.duration now (lookupD w.data k)
  (l.map WEntry.event, { w with data := setKey w.data k l })

/-- `Window.get_all_keys`: every key currently present in the store. -/
def getAllKeys {α : Type} (w : Window α) : List String :=
  w.data.map Prod.fst

/-- A per-key deque whose insertion timestamps are in non-decreasing order,
as produced by appending entries stamped with a monotone clock. -/
def sortedEntries {α : Type} (l : List (WEntry α)) : Prop :=
  l.Pairwise (fun a b => a.timestamp ≤ b.timestamp)

/-- The `safe_div` helper defined inside `process_window`: float division,
returning `0.0` when the divisor is falsy (zero). -/
def safe_div (a b : Rat) : Rat :=
  if b = 0 then 0 else a / b

/-- Round a rational to the nearest integer, ties to even — the rounding of
Python's builtin `round`. -/
def rhe (q : Rat) : Int :=
  if q - Int.floor q < 1 / 2 then Int.floor q
  else if 1 / 2 < q - Int.floor q then Int.floor q + 1
  else if Int.floor q % 2 = 0 then Int.floor q else Int.floor q + 1

/-- Python's `round(x, n)` modelled on exact rationals: round-half-to-even at
`n` decimal places. -/
def pyRound (n : Nat) (x : Rat) : Rat :=
  rhe (x * 10 ^ n) / 10 ^ n

example : pyRound 2 (157 / 1000) = 16 / 100 := by
  norm_num [pyRound, rhe]

example : pyRound 4 (-(1 / 400)) = -(1 / 400) := by
  norm_num [pyRound, rhe]

/-- The fields of a raw windowed event that `process_window` reads from the
first and last event dicts of the window. -/
structure RawEvent where
  timestamp : Int
  user_id : Option Nat
  device_type : Option String
  browser : Option String
  deriving DecidableEq

/-- A well-typed ML API prediction response, as consumed by
`process_window` and `log_prediction`. -/
structure Prediction where
  abandonment_probability : Rat
  will_abandon : Bool
  risk_level : String
  recommended_intervention : Option String
  model_version : String
  deriving DecidableEq

/-- The `ml_payload` feature dict built by `process_window` and sent to the
scoring endpoint. -/
structure MlPayload where
  session_id : String
  user_id : Nat
  page_views : Nat
  products_viewed : Nat
  unique_products_viewed : Nat
  searches : Nat
  cart_additions : Nat
  cart_removals : Nat
  cart_value : Rat
  session_duration_seconds : Int
  avg_time_per_page : Rat
  engagement_score : Rat
  cart_engagement : Int
  time_per_product : Rat
  cart_to_checkout_rate : Rat
  pages_per_minute : Rat
  unique_product_ratio : Rat
  device_type : String
  browser : String
  persona : String
  bounce : Bool
  checkout_initiated : Bool
  deriving DecidableEq

/-- The `session_record` snapshot written to both sinks by `process_window`. -/
structure SessionRecord where
  session_id : String
  user_id : Option Nat
  start_time : Int
  end_time : Option Int
  last_activity : Int
  device_type : String
  browser : String
  page_views : Nat
  products_viewed : Nat
  unique_products_viewed : Nat
  searches : Nat
  cart_additions : Nat
  cart_removals : Nat
  cart_value : Rat
  is_converted : Bool
  purchase_value : Rat
  session_duration_seconds : Int
  avg_time_per_page : Rat
  bounce : Bool
  is_cart_abandoned : Bool
  abandonment_reason : Option String
  time_in_cart_seconds : Int
  checkout_initiated : Bool
  persona : Option String
  updated_at : Int
  deriving DecidableEq

/-- A side-effecting sink operation issued by `process_window`
(in issue order). -/
inductive SinkOp where
  | postgres (table : String) (record : SessionRecord)
  | redis (key : String) (value : SessionRecord) (expire_seconds : Nat)
  | ml_log (session_id : String) (p : Prediction)
  deriving DecidableEq

/-- The five-term engagement sum shared by the code (`min(1.0, ...)` in
`process_window`) and the spec formula (`clamp(0..1, ...)`):
`0.35*products_viewed/page_views + 0.20*cart_additions`
`+ 0.20*cart_value/(max(1,cart_additions)*40) + 0.15*pages_per_minute`
`+ 0.10*(not bounce)`, each division via `safe_div`. -/
def engagementSum (page_views products_viewed cart_additions : Nat)
    (cart_value pages_per_minute : Rat) (bounce : Bool) : Rat :=
  0.35 * safe_div products_viewed page_views
    + 0.20 * cart_additions
    + 0.20 * safe_div cart_value ((max 1 cart_additions : Nat) * 40)
    + 0.15 * pages_per_minute
    + 0.10 * (if bounce then 0 else 1)

/-- `str(metrics.get('persona') or "window_shopper")`: the persona string of
the ML payload, defaulting on a falsy (absent or empty) persona. -/
def personaOrDefault (p : Option String) : String :=
  match p with
  | some s => if s.isEmpty then "window_shopper" else s
  | none => "window_shopper"

/-- `SessionAggregator.process_window` for one key. Inputs are the window's
event list, the session's metrics accumulator, the recorded session start
time (`session_starts.get(session_id)`), the wall-clock time `now` read by
`datetime.now`, and the scoring outcome `prediction` returned by the ML
service (`none` when the call is skipped, fails, or yields no prediction).
Returns `none` on an empty window, otherwise the snapshot record, the ML
feature payload, and the sink operations issued. -/
def processWindow (key : String) (events : List RawEvent) (metrics : Metrics)
    (session_start_time : Option Int) (now : Int) (prediction : Option Prediction) :
    Option (SessionRecord × MlPayload × List SinkOp) :=
  match events with
  | [] => none
  | first :: rest =>
    let last := (first :: rest).getLast (List.cons_ne_nil first rest)
    let user_id := first.user_id
    let device_type := first.device_type.getD "desktop"
    let browser := first.browser.getD "Unknown"
    let start_time := session_start_time.getD now
    let last_activity := last.timestamp
    let duration_seconds : Int := last_activity - start_time
    let page_views := metrics.page_views
    let avg_time_per_page : Rat :=
      if 0 < page_views then (duration_seconds : Rat) / (page_views : Rat) else 0
    let is_bounce : Bool := decide (page_views ≤ 1) && decide (duration_seconds < 30)
    let products_viewed := metrics.products_viewed.card
    let unique_products_viewed := products_viewed
    let cart_additions := metrics.cart_additions
    let cart_removals := metrics.cart_removals
    let cart_value := pyRound 2 metrics.cart_value
    let checkout_flag := metrics.checkout_initiated
    let searches := metrics.searches
    let bounce := is_bounce
    let cart_engagement : Int := (cart_additions : Int) - (cart_removals : Int)
    let time_per_product := safe_div (duration_seconds : Rat) (products_viewed : Rat)
    let cart_to_checkout_rate :=
      safe_div (if checkout_flag then 1 else 0) (cart_additions : Rat)
    let pages_per_minute := safe_div (page_views : Rat) ((duration_seconds : Rat) / 60)
    let unique_product_ratio :=
      safe_div (unique_products_viewed : Rat) (products_viewed : Rat)
    let engagement_score :=
      min 1 (engagementSum page_views products_viewed cart_additions
        cart_value pages_per_minute bounce)
    let ml_payload : MlPayload :=
      { session_id := key
        user_id := user_id.getD 0
        page_views := page_views
        products_viewed := products_viewed
        unique_products_viewed := unique_products_viewed
        searches := searches
        cart_additions := cart_additions
        cart_removals := cart_removals
        cart_value := cart_value
        session_duration_seconds := duration_seconds
        avg_time_per_page := avg_time_per_page
        engagement_score := pyRound 4 engagement_score
        cart_engagement := cart_engagement
        time_per_product := pyRound 2 time_per_product
        cart_to_checkout_rate := pyRound 2 cart_to_checkout_rate
        pages_per_minute := pyRound 2 pages_per_minute
        unique_product_ratio := pyRound 2 unique_product_ratio
        device_type := device_type
        browser := browser
        persona := personaOrDefault metrics.persona
        bounce := bounce
        checkout_initiated := checkout_flag }
    let session_record : SessionRecord :=
      { session_id := key
        user_id := user_id
        start_time := start_time
        end_time := none
        last_activity := last_activity
        device_type := device_type
        browser := browser
        page_views := page_views
        products_viewed := products_viewed
        unique_products_viewed := unique_products_viewed
        searches := searches
        cart_additions := cart_additions
        cart_removals := cart_removals
        cart_value := cart_value
        is_converted := metrics.is_converted
        purchase_value := pyRound 2 metrics.purchase_value
        session_duration_seconds := duration_seconds
        avg_time_per_page := pyRound 2 avg_time_per_page
        bounce := bounce
        is_cart_abandoned := metrics.is_cart_abandoned
        abandonment_reason := metrics.abandonment_reason
        time_in_cart_seconds := metrics.time_in_cart_seconds
        checkout_initiated := checkout_flag
        persona := metrics.persona
        updated_at := now }
    let mlOps : List SinkOp :=
      match prediction with
      | some p => [SinkOp.ml_log key p]
      | none => []
    some (session_record, ml_payload,
      mlOps ++ [SinkOp.postgres "user_sessions" session_record,
                SinkOp.redis ("session:" ++ key) session_record 3600])

/-- Modelled from the spec: the emitted engagement score as §4.4 words it,
with `clamp(0..1, ...)` in place of the code's upper-only `min(1.0, ...)`,
the same safe divisions, the same derived inputs (rounded cart value,
pages-per-minute, bounce), and the same rounding to 4 decimal places. -/
def specEngagementOfWindow (metrics : Metrics) (duration_seconds : Int) : Rat :=
  let page_views := metrics.page_views
  let products_viewed := metrics.products_viewed.card
  let cart_additions := metrics.cart_additions
  let cart_value := pyRound 2 metrics.cart_value
  let pages_per_minute := safe_div (page_views : Rat) ((duration_seconds : Rat) / 60)
  let bounce : Bool := decide (page_views ≤ 1) && decide (duration_seconds < 30)
  pyRound 4 (max 0 (min 1 (engagementSum page_views products_viewed cart_additions
    cart_value pages_per_minute bounce)))

/-- The observable outcome of the HTTP POST performed by `call_ml_api`:
either the request raised (timeout, connection error), or a response came
back with a status code and a body that may fail to decode (`none`). -/
inductive ApiOutcome where
  | raised
  | response (status_code : Nat) (body : Option Prediction)
  deriving DecidableEq

/-- An outcome on which the scoring call yields no usable prediction:
a raised request, a non-200 status, or an undecodable body. -/
def apiFailure : ApiOutcome → Prop
  | .raised => True
  | .response code body => code ≠ 200 ∨ body = none

/-- `MLInferenceService.call_ml_api`. First component: the prediction handed
back to the caller (`None` on skip or any failure, every exception being
caught inside the method). Second component: whether the external HTTP call
was performed at all. -/
def call_ml_api (cart_value : Rat) (outcome : ApiOutcome) : Option Prediction × Bool :=
  if cart_value ≤ 0 then (none, false)
  else
    match outcome with
    | .raised => (none, true)
    | .response code body =>
        if code ≠ 200 then (none, true)
        else
          match body with
          | none => (none, true)
          | some p => (some p, true)

/-- Non-negative price and quantity payloads, the hypothesis under which the
cart-value invariant is claimed. -/
def eventPriceQtyNonNeg : Event → Prop
  | .add_to_cart price quantity => 0 ≤ price ∧ 0 ≤ quantity
  | .remove_from_cart price quantity => 0 ≤ price ∧ 0 ≤ quantity
  | _ => True

/-- One `process_event` fold keeps `cart_value` non-negative: additions add a
non-negative amount, removals are clamped at 0, all other event types leave
the cart value untouched. -/
theorem cart_value_nonneg_step (s : SessionState) (e : Event)
    (hs : 0 ≤ s.metrics.cart_value) (he : eventPriceQtyNonNeg e) :
    0 ≤ (processEvent s e).metrics.cart_value := by
  cases e with
  | session_start ts p =>
      simp only [processEvent]
      split <;> exact hs
  | page_view => exact hs
  | product_view pid =>
      cases pid with
      | none => exact hs
      | some pid =>
          simp only [processEvent]
          split <;> exact hs
  | add_to_cart price quantity =>
      obtain ⟨hp, hq⟩ := he
      exact add_nonneg hs (mul_nonneg hp hq)
  | remove_from_cart price quantity => exact le_max_left 0 _
  | search => exact hs
  | checkout_initiated => exact hs
  | purchase cv => exact hs
  | cart_abandoned reason t => exact hs
  | session_end => exact hs

/-- C1 (counterexample): folding `session_start(persona=A)` and then
`session_start(persona=B)` leaves persona `B`, not the first-written `A` —
the code overwrites persona on every persona-bearing `session_start`. -/
theorem c1_persona_counterexample :
    (foldEvents initSession
      [Event.session_start 0 (some "A"), Event.session_start 1 (some "B")]).metrics.persona
      = some "B" ∧ (some "B" : Option String) ≠ some "A" :=
  ⟨rfl, by decide⟩

/-- C1 (amended): persona is last-write-wins. If a session's persona is
already `A`, folding a later `session_start` carrying a non-empty persona
`B` overwrites it to `B`; folding a `session_start` carrying no persona
leaves it at `A`. -/
theorem c1_persona_last_write_wins (s : SessionState) (a : String)
    (h : s.metrics.persona = some a) (ts ts' : Int) (b : String)
    (hb : b.isEmpty = false) :
    (processEvent s (Event.session_start ts (some b))).metrics.persona = some b ∧
    (processEvent s (Event.session_start ts' none)).metrics.persona = some a := by
  constructor
  · simp [processEvent, truthyStr, hb]
  · simpa [processEvent, truthyStr] using h

/-- Witness for the amended C1 at a concrete state carrying persona `A`. -/
theorem c1_persona_last_write_wins_witness :
    (processEvent { start := none, metrics := { initMetrics with persona := some "A" } }
        (Event.session_start 5 (some "B"))).metrics.persona = some "B" ∧
    (processEvent { start := none, metrics := { initMetrics with persona := some "A" } }
        (Event.session_start 6 none)).metrics.persona = some "A" :=
  c1_persona_last_write_wins _ "A" rfl 5 6 "B" rfl

/-- C2: starting from any state with a non-negative cart value (in particular
the fresh accumulator), folding any sequence of events whose add/remove
payloads carry non-negative price and quantity keeps `cart_value ≥ 0`
after every fold. -/
theorem c2_cart_value_nonneg (s : SessionState) (events : List Event)
    (hs : 0 ≤ s.metrics.cart_value)
    (h : ∀ e ∈ events, eventPriceQtyNonNeg e) :
    0 ≤ (foldEvents s events).metrics.cart_value := by
  induction events generalizing s with
  | nil => simpa [foldEvents] using hs
  | cons e es ih =>
      have hstep := cart_value_nonneg_step s e hs (h e (by simp))
      have htail : ∀ e' ∈ es, eventPriceQtyNonNeg e' := fun e' he' => h e' (by simp [he'])
      simpa [foldEvents] using ih (processEvent s e) hstep htail

/-- Witness for C2 on a concrete add/remove interleaving. -/
theorem c2_cart_value_nonneg_witness :
    0 ≤ (foldEvents initSession
      [Event.add_to_cart 10 2, Event.remove_from_cart 10 5,
       Event.add_to_cart 3 1]).metrics.cart_value :=
  c2_cart_value_nonneg initSession _ (le_refl 0)
    (by intro e he; fin_cases he <;> exact ⟨by norm_num, by norm_num⟩)

/-- C5: the scoring client performs no external call and returns `none`
whenever the snapshot's cart value is ≤ 0; and on any call failure (raised
request, non-200 status, undecodable body) it hands `none` back to its
caller — the method catches every exception internally. -/
theorem c5_scoring_skip_and_failure (cart_value : Rat) (outcome : ApiOutcome) :
    (cart_value ≤ 0 → call_ml_api cart_value outcome = (none, false)) ∧
    (apiFailure outcome → (call_ml_api cart_value outcome).1 = none) := by
  constructor
  · intro h
    simp [call_ml_api, h]
  · intro h
    by_cases hcv : cart_value ≤ 0
    · simp [call_ml_api, hcv]
    · cases outcome with
      | raised => simp [call_ml_api, hcv]
      | response code body =>
          rcases h with hc | hb
          · simp [call_ml_api, hcv, hc]
          · subst hb
            simp only [call_ml_api, if_neg hcv]
            split <;> simp

/-- Witness for C5: an empty cart skips the call, and a 500 response with an
undecodable body yields no prediction. -/
theorem c5_scoring_witness :
    call_ml_api 0 ApiOutcome.raised = (none, false) ∧
    (call_ml_api 1 (ApiOutcome.response 500 none)).1 = none :=
  ⟨(c5_scoring_skip_and_failure 0 ApiOutcome.raised).1 (by norm_num),
   (c5_scoring_skip_and_failure 1 (ApiOutcome.response 500 none)).2 (Or.inl (by norm_num))⟩

/-- C4: on every non-empty window, `process_window` emits the snapshot and
issues both sink writes — the `user_sessions` insert and the
`session:` cache write — whatever the scoring outcome is, and with
`none` scoring outcome the emitted snapshot, payload and the two writes are
exactly the same. -/
theorem c4_sinks_regardless_of_scoring (key : String) (first : RawEvent)
    (rest : List RawEvent) (metrics : Metrics) (st : Option Int) (now : Int)
    (prediction : Option Prediction) :
    ∃ r p ops,
      processWindow key (first :: rest) metrics st now prediction = some (r, p, ops) ∧
      SinkOp.postgres "user_sessions" r ∈ ops ∧
      SinkOp.redis ("session:" ++ key) r 3600 ∈ ops ∧
      processWindow key (first :: rest) metrics st now none =
        some (r, p, [SinkOp.postgres "user_sessions" r,
                     SinkOp.redis ("session:" ++ key) r 3600]) := by
  cases prediction with
  | none => exact ⟨_, _, _, rfl, by simp, by simp, rfl⟩
  | some p => exact ⟨_, _, _, rfl, by simp, by simp, rfl⟩

/-- C7 (counterexample): two `process_window` invocations with identical key,
window events, accumulator state and recorded start time, but performed at
different wall-clock instants, emit different snapshots — the `updated_at`
field records the invocation time. -/
theorem c7_determinism_counterexample :
    ∃ r1 p1 o1 r2 p2 o2,
      processWindow "s" [⟨0, none, none, none⟩] initMetrics (some 0) 0 none
        = some (r1, p1, o1) ∧
      processWindow "s" [⟨0, none, none, none⟩] initMetrics (some 0) 1 none
        = some (r2, p2, o2) ∧
      r1.updated_at = 0 ∧ r2.updated_at = 1 ∧ r1 ≠ r2 := by
  refine ⟨_, _, _, _, _, _, rfl, rfl, rfl, rfl, ?_⟩
  intro h
  exact absurd (congrArg SessionRecord.updated_at h) (by decide)

/-- C7 (amended): with the wall-clock instant factored out, `process_window`
is deterministic up to `updated_at`: two invocations with identical key,
window events, accumulator state and recorded start time (and any scoring
outcomes) produce identical ML payloads and snapshots agreeing on every
field except `updated_at`, which equals each invocation's clock reading. -/
theorem c7_deterministic_up_to_updated_at (key : String) (first : RawEvent)
    (rest : List RawEvent) (metrics : Metrics) (startT : Int) (n1 n2 : Int)
    (ml1 ml2 : Option Prediction) :
    ∃ r1 p1 o1 r2 p2 o2,
      processWindow key (first :: rest) metrics (some startT) n1 ml1
        = some (r1, p1, o1) ∧
      processWindow key (first :: rest) metrics (some startT) n2 ml2
        = some (r2, p2, o2) ∧
      p1 = p2 ∧ r1.updated_at = n1 ∧ r2.updated_at = n2 ∧
      { r1 with updated_at := r2.updated_at } = r2 :=
  ⟨_, _, _, _, _, _, rfl, rfl, rfl, rfl, rfl, rfl⟩

/-- C8: each snapshot's `session_duration_seconds` equals `last_activity`
minus the recorded start time, and across two snapshots for the same
recorded start time it is monotonically non-decreasing as long as the
window's last-event timestamp does not decrease. -/
theorem c8_duration_monotone (key1 key2 : String) (first1 first2 : RawEvent)
    (rest1 rest2 : List RawEvent) (m1 m2 : Metrics) (startT : Int)
    (n1 n2 : Int) (ml1 ml2 : Option Prediction)
    (hla : ((first1 :: rest1).getLast (List.cons_ne_nil first1 rest1)).timestamp ≤
           ((first2 :: rest2).getLast (List.cons_ne_nil first2 rest2)).timestamp) :
    ∃ r1 p1 o1 r2 p2 o2,
      processWindow key1 (first1 :: rest1) m1 (some startT) n1 ml1 = some (r1, p1, o1) ∧
      processWindow key2 (first2 :: rest2) m2 (some startT) n2 ml2 = some (r2, p2, o2) ∧
      r1.start_time = startT ∧ r2.start_time = startT ∧
      r1.session_duration_seconds = r1.last_activity - r1.start_time ∧
      r2.session_duration_seconds = r2.last_activity - r2.start_time ∧
      r1.session_duration_seconds ≤ r2.session_duration_seconds := by
  refine ⟨_, _, _, _, _, _, rfl, rfl, rfl, rfl, rfl, rfl, ?_⟩
  exact sub_le_sub_right hla startT

/-- Witness for C8: a one-event window at time 0 followed by a one-event
window at time 5, same recorded start time 0. -/
theorem c8_duration_monotone_witness :
    ∃ r1 p1 o1 r2 p2 o2,
      processWindow "s" [⟨0, none, none, none⟩] initMetrics (some 0) 0 none
        = some (r1, p1, o1) ∧
      processWindow "s" [⟨5, none, none, none⟩] initMetrics (some 0) 0 none
        = some (r2, p2, o2) ∧
      r1.start_time = 0 ∧ r2.start_time = 0 ∧
      r1.session_duration_seconds = r1.last_activity - r1.start_time ∧
      r2.session_duration_seconds = r2.last_activity - r2.start_time ∧
      r1.session_duration_seconds ≤ r2.session_duration_seconds :=
  c8_duration_monotone "s" "s" ⟨0, none, none, none⟩ ⟨5, none, none, none⟩ [] []
    initMetrics initMetrics 0 0 0 none none (by decide)

/-- `safe_div` of non-negative arguments is non-negative. -/
theorem safe_div_nonneg {a b : Rat} (ha : 0 ≤ a) (hb : 0 ≤ b) : 0 ≤ safe_div a b := by
  unfold safe_div
  split
  · exact le_refl 0
  · exact div_nonneg ha hb

/-- Round-half-to-even of a non-negative rational is non-negative. -/
theorem rhe_nonneg {q : Rat} (hq : 0 ≤ q) : 0 ≤ rhe q := by
  have hf : 0 ≤ Int.floor q := Int.le_floor.mpr (by exact_mod_cast hq)
  unfold rhe
  split
  · exact hf
  · split
    · omega
    · split <;> omega

/-- `pyRound` of a non-negative rational is non-negative. -/
theorem pyRound_nonneg (n : Nat) {x : Rat} (hx : 0 ≤ x) : 0 ≤ pyRound n x := by
  unfold pyRound
  apply div_nonneg
  · exact_mod_cast rhe_nonneg (mul_nonneg hx (by positivity))
  · positivity

/-- `pyRound` fixes 0. -/
theorem pyRound_zero (n : Nat) : pyRound n 0 = 0 := by
  norm_num [pyRound, rhe]

/-- The engagement sum is non-negative as soon as its cart value and
pages-per-minute inputs are (the count inputs are naturals). -/
theorem engagementSum_nonneg (page_views products_viewed cart_additions : Nat)
    {cart_value pages_per_minute : Rat} (bounce : Bool)
    (hcv : 0 ≤ cart_value) (hppm : 0 ≤ pages_per_minute) :
    0 ≤ engagementSum page_views products_viewed cart_additions
      cart_value pages_per_minute bounce := by
  unfold engagementSum
  have h1 : 0 ≤ safe_div (products_viewed : Rat) (page_views : Rat) :=
    safe_div_nonneg (Nat.cast_nonneg _) (Nat.cast_nonneg _)
  have h2 : 0 ≤ safe_div cart_value (((max 1 cart_additions : Nat) : Rat) * 40) :=
    safe_div_nonneg hcv (by positivity)
  have h3 : 0 ≤ (if bounce then (0 : Rat) else 1) := by split <;> norm_num
  have h4 : (0 : Rat) ≤ (cart_additions : Rat) := Nat.cast_nonneg _
  nlinarith

/-- C6 (counterexample): with one page view, an empty accumulator otherwise,
and a window whose last activity precedes the recorded start time by an hour
(derived duration −3600 s), the emitted `engagement_score` is −0.0025 while
the spec's `clamp(0..1, ...)` formula yields 0: the code applies only the
upper clamp `min(1.0, ...)`, so the claimed formula fails on this input. -/
theorem c6_engagement_counterexample :
    (processWindow "s" [⟨0, none, none, none⟩] { initMetrics with page_views := 1 }
        (some 3600) 0 none).map (fun x => x.2.1.engagement_score)
      = some (-(1 / 400)) ∧
    (processWindow "s" [⟨0, none, none, none⟩] { initMetrics with page_views := 1 }
        (some 3600) 0 none).map (fun x => x.1.session_duration_seconds)
      = some (-3600) ∧
    specEngagementOfWindow { initMetrics with page_views := 1 } (-3600) = 0 ∧
    (-(1 / 400) : Rat) ≠ 0 := by
  refine ⟨?_, rfl, ?_, by norm_num⟩
  · norm_num [processWindow, engagementSum, safe_div, pyRound, rhe, initMetrics,
      min_def, personaOrDefault]
  · norm_num [specEngagementOfWindow, engagementSum, safe_div, pyRound, rhe,
      initMetrics, min_def, max_def]

/-- C6 (amended): the emitted `engagement_score` equals the spec's
`clamp(0..1, ...)` formula (with identical safe divisions and 4-decimal
rounding) whenever the accumulator's cart value is non-negative and the
window's last activity is not before the recorded-or-defaulted start time
(derived duration ≥ 0); in general the code applies only the upper clamp
`min(1.0, ...)` to the five-term sum. -/
theorem c6_engagement_amended (key : String) (first : RawEvent) (rest : List RawEvent)
    (metrics : Metrics) (st : Option Int) (now : Int) (ml : Option Prediction)
    (hcv : 0 ≤ metrics.cart_value)
    (hdur : st.getD now ≤ ((first :: rest).getLast (List.cons_ne_nil first rest)).timestamp) :
    (processWindow key (first :: rest) metrics st now ml).map
        (fun x => x.2.1.engagement_score)
      = some (specEngagementOfWindow metrics
          (((first :: rest).getLast (List.cons_ne_nil first rest)).timestamp
            - st.getD now)) := by
  have hppm : 0 ≤ safe_div (metrics.page_views : Rat)
      (((((first :: rest).getLast (List.cons_ne_nil first rest)).timestamp
        - st.getD now : Int) : Rat) / 60) :=
    safe_div_nonneg (Nat.cast_nonneg _)
      (div_nonneg (by exact_mod_cast sub_nonneg.mpr hdur) (by norm_num))
  have hS := engagementSum_nonneg metrics.page_views metrics.products_viewed.card
    metrics.cart_additions
    (decide (metrics.page_views ≤ 1)
      && decide ((((first :: rest).getLast (List.cons_ne_nil first rest)).timestamp
        - st.getD now : Int) < 30))
    (pyRound_nonneg 2 hcv) hppm
  simp only [processWindow, specEngagementOfWindow, Option.map_some', Option.some.injEq]
  rw [max_eq_right (le_min zero_le_one hS)]

/-- Witness for the amended C6: empty accumulator, window of one event at
time 60 with recorded start 0, scoring skipped. -/
theorem c6_engagement_amended_witness :
    (processWindow "s" [⟨60, none, none, none⟩] initMetrics (some 0) 0 none).map
        (fun x => x.2.1.engagement_score)
      = some (specEngagementOfWindow initMetrics 60) :=
  c6_engagement_amended "s" ⟨60, none, none, none⟩ [] initMetrics (some 0) 0 none
    (by norm_num [initMetrics]) (by decide)

/-- C10: every division in snapshot derivation is guarded: the `safe_div`
helper returns 0 on a zero divisor; with zero page views the average time
per page is 0; with no viewed products `time_per_product` and
`unique_product_ratio` are 0; with no cart additions `cart_to_checkout_rate`
is 0; and with zero derived duration `pages_per_minute` is 0. -/
theorem c10_safe_division_guards (key : String) (first : RawEvent)
    (rest : List RawEvent) (metrics : Metrics) (st : Option Int) (now : Int)
    (ml : Option Prediction) :
    (∀ a : Rat, safe_div a 0 = 0) ∧
    ∃ r p ops,
      processWindow key (first :: rest) metrics st now ml = some (r, p, ops) ∧
      (metrics.page_views = 0 → r.avg_time_per_page = 0 ∧ p.avg_time_per_page = 0) ∧
      (metrics.products_viewed.card = 0 →
        p.time_per_product = 0 ∧ p.unique_product_ratio = 0) ∧
      (metrics.cart_additions = 0 → p.cart_to_checkout_rate = 0) ∧
      (((first :: rest).getLast (List.cons_ne_nil first rest)).timestamp = st.getD now →
        p.pages_per_minute = 0) := by
  refine ⟨fun a => by simp [safe_div], _, _, _, rfl, ?_, ?_, ?_, ?_⟩
  · intro h
    constructor
    · simp [h, pyRound_zero]
    · simp [h]
  · intro h
    constructor <;> simp [h, safe_div, pyRound_zero]
  · intro h
    simp [h, safe_div, pyRound_zero]
  · intro h
    have hz : ((first :: rest).getLast (List.cons_ne_nil first rest)).timestamp
        - st.getD now = 0 := sub_eq_zero_of_eq h
    simp [hz, safe_div, pyRound_zero]

/-- Witness for C10: empty accumulator and a window whose single event's
timestamp equals the recorded start time, so every guard fires. -/
theorem c10_safe_division_guards_witness :
    (processWindow "s" [⟨5, none, none, none⟩] initMetrics (some 5) 0 none).map
        (fun x => (x.1.avg_time_per_page, x.2.1.time_per_product,
          x.2.1.cart_to_checkout_rate, x.2.1.pages_per_minute))
      = some (0, 0, 0, 0) := by
  obtain ⟨hsd, r, p, ops, heq, h1, h2, h3, h4⟩ :=
    c10_safe_division_guards "s" ⟨5, none, none, none⟩ [] initMetrics (some 5) 0 none
  rw [heq]
  simp [(h1 rfl).1, (h2 (by simp [initMetrics])).1, h3 rfl, h4 rfl]

/-- Looking a key up right after storing it yields the stored deque. -/
theorem lookupD_setKey {α : Type} (data : List (String × List (WEntry α)))
    (k : String) (v : List (WEntry α)) : lookupD (setKey data k v) k = v := by
  induction data with
  | nil => simp [setKey, lookupD]
  | cons p rest ih =>
      obtain ⟨k', v'⟩ := p
      by_cases hk : k' = k
      · simp [setKey, lookupD, hk]
      · simp [setKey, lookupD, hk, ih]

/-- Storing under a key already present leaves the key enumeration as is. -/
theorem map_fst_setKey_of_mem {α : Type} (data : List (String × List (WEntry α)))
    (k : String) (v : List (WEntry α)) (h : k ∈ data.map Prod.fst) :
    (setKey data k v).map Prod.fst = data.map Prod.fst := by
  induction data with
  | nil => simp at h
  | cons p rest ih =>
      obtain ⟨k', v'⟩ := p
      by_cases hk : k' = k
      · simp [setKey, hk]
      · have h' : k ∈ rest.map Prod.fst := by
          rcases List.mem_cons.mp h with h1 | h1
          · exact absurd h1.symm hk
          · exact h1
        simp [setKey, hk, ih h']

/-- On a deque with non-decreasing timestamps, popping expired entries from
the front removes exactly the entries before the cutoff. -/
theorem cleanup_eq_filter_of_sorted {α : Type} (c : Int) (l : List (WEntry α))
    (h : sortedEntries l) :
    l.dropWhile (fun en => decide (en.timestamp < c)) =
      l.filter (fun en => decide (c ≤ en.timestamp)) := by
  induction l with
  | nil => rfl
  | cons a l ih =>
      rw [sortedEntries, List.pairwise_cons] at h
      by_cases ha : a.timestamp < c
      · simp only [List.dropWhile_cons, List.filter_cons, decide_eq_true_eq, ha,
          if_pos, decide_eq_true_eq]
        rw [if_neg (by omega)]
        exact ih h.2
      · rw [List.dropWhile_cons_of_neg (by simpa using ha),
          List.filter_cons_of_pos (by simp; omega)]
        have hall : ∀ b ∈ l, decide (c ≤ b.timestamp) = true := by
          intro b hb
          have := h.1 b hb
          simp only [decide_eq_true_eq]
          omega
        rw [List.filter_eq_self.mpr hall]

/-- C3: window expiry. Against a key whose deque has monotone insertion
timestamps all ≤ `t` (as the real clock produces), after `add_event` at time
`t` a `get_window_data` at any later time `t'` (i) still returns the
inserted event while `t' - t ≤ duration`, (ii) returns nothing once
`t' - t > duration` (every entry is then expired), and (iii) in general
returns exactly the stored entries at or after the cutoff `t' - duration`,
in deque (oldest-first) order. -/
theorem c3_window_expiry {α : Type} (w : Window α) (k : String) (e : α) (t t' : Int)
    (hd : 0 ≤ w.duration)
    (hsorted : sortedEntries (lookupD w.data k))
    (hle : ∀ en ∈ lookupD w.data k, en.timestamp ≤ t)
    (ht : t ≤ t') :
    (t' - t ≤ w.duration → e ∈ (getWindowData (addEvent w k e t) k t').1) ∧
    (w.duration < t' - t → (getWindowData (addEvent w k e t) k t').1 = []) ∧
    (getWindowData (addEvent w k e t) k t').1 =
      ((lookupD (addEvent w k e t).data k).filter
        (fun en => decide (t' - w.duration ≤ en.timestamp))).map WEntry.event := by
  have happ_sorted : sortedEntries (lookupD w.data k ++ [⟨e, t⟩]) := by
    rw [sortedEntries, List.pairwise_append]
    refine ⟨hsorted, ?_, ?_⟩
    · simp
    · intro a ha b hb
      simp only [List.mem_singleton] at hb
      subst hb
      exact hle a ha
  have hl1 : lookupD (addEvent w k e t).data k =
      cleanupExpired w.duration t (lookupD w.data k ++ [⟨e, t⟩]) := by
    simp [addEvent, lookupD_setKey]
  have hclean : cleanupExpired w.duration t (lookupD w.data k ++ [⟨e, t⟩]) =
      (lookupD w.data k ++ [(⟨e, t⟩ : WEntry α)]).filter
        (fun en => decide (t - w.duration ≤ en.timestamp)) :=
    cleanup_eq_filter_of_sorted _ _ happ_sorted
  have hl1_sorted : sortedEntries (lookupD (addEvent w k e t).data k) := by
    rw [hl1, hclean]
    exact List.Pairwise.filter _ happ_sorted
  have hl1_le : ∀ en ∈ lookupD (addEvent w k e t).data k, en.timestamp ≤ t := by
    intro en hen
    rw [hl1, hclean] at hen
    have hen' := List.mem_of_mem_filter hen
    rcases List.mem_append.mp hen' with h1 | h1
    · exact hle en h1
    · simp only [List.mem_singleton] at h1
      subst h1
      exact le_refl t
  have hnew_mem : (⟨e, t⟩ : WEntry α) ∈ lookupD (addEvent w k e t).data k := by
    rw [hl1, hclean]
    refine List.mem_filter.mpr ⟨List.mem_append_right _ (List.mem_singleton_self _), ?_⟩
    simp only [decide_eq_true_eq]
    omega
  have hget : (getWindowData (addEvent w k e t) k t').1 =
      ((lookupD (addEvent w k e t).data k).filter
        (fun en => decide (t' - w.duration ≤ en.timestamp))).map WEntry.event := by
    show (cleanupExpired w.duration t' (lookupD (addEvent w k e t).data k)).map WEntry.event
        = _
    rw [cleanupExpired, cleanup_eq_filter_of_sorted _ _ hl1_sorted]
  refine ⟨?_, ?_, hget⟩
  · intro hlive
    rw [hget]
    refine List.mem_map.mpr ⟨⟨e, t⟩, List.mem_filter.mpr ⟨hnew_mem, ?_⟩, rfl⟩
    simp only [decide_eq_true_eq]
    omega
  · intro hexp
    rw [hget]
    have : (lookupD (addEvent w k e t).data k).filter
        (fun en => decide (t' - w.duration ≤ en.timestamp)) = [] := by
      rw [List.filter_eq_nil_iff]
      intro en hen
      have := hl1_le en hen
      simp only [decide_eq_true_eq]
      omega
    rw [this, List.map_nil]

/-- Witness for C3: empty window store of duration 300, insert at time 0,
read back at time 100. -/
theorem c3_window_expiry_witness :
    ((100 : Int) - 0 ≤ (300 : Int) →
      7 ∈ (getWindowData (addEvent (⟨300, []⟩ : Window Nat) "s1" 7 0) "s1" 100).1) ∧
    ((300 : Int) < 100 - 0 →
      (getWindowData (addEvent (⟨300, []⟩ : Window Nat) "s1" 7 0) "s1" 100).1 = []) ∧
    (getWindowData (addEvent (⟨300, []⟩ : Window Nat) "s1" 7 0) "s1" 100).1 =
      ((lookupD (addEvent (⟨300, []⟩ : Window Nat) "s1" 7 0).data "s1").filter
        (fun en => decide ((100 : Int) - 300 ≤ en.timestamp))).map WEntry.event :=
  c3_window_expiry (⟨300, []⟩ : Window Nat) "s1" 7 0 100 (by norm_num)
    (by simp [lookupD, sortedEntries]) (by simp [lookupD]) (by norm_num)

/-- C9: reading a present key whose entries have all expired returns the
empty sequence, stores the emptied deque back under the key, and leaves the
key enumeration of the store unchanged (the key is still listed). -/
theorem c9_expired_key_stays {α : Type} (w : Window α) (k : String) (t' : Int)
    (hmem : k ∈ getAllKeys w)
    (hexp : ∀ en ∈ lookupD w.data k, en.timestamp < t' - w.duration) :
    (getWindowData w k t').1 = [] ∧
    lookupD ((getWindowData w k t').2).data k = [] ∧
    getAllKeys ((getWindowData w k t').2) = getAllKeys w ∧
    k ∈ getAllKeys ((getWindowData w k t').2) := by
  have hclean : cleanupExpired w.duration t' (lookupD w.data k) = [] := by
    rw [cleanupExpired, List.dropWhile_eq_nil_iff]
    intro en hen
    simp only [decide_eq_true_eq]
    exact hexp en hen
  have h1 : (getWindowData w k t').1 = [] := by
    show (cleanupExpired w.duration t' (lookupD w.data k)).map WEntry.event = []
    rw [hclean, List.map_nil]
  have h2 : lookupD ((getWindowData w k t').2).data k = [] := by
    show lookupD (setKey w.data k (cleanupExpired w.duration t' (lookupD w.data k))) k = []
    rw [hclean, lookupD_setKey]
  have h3 : getAllKeys ((getWindowData w k t').2) = getAllKeys w := by
    show (setKey w.data k (cleanupExpired w.duration t' (lookupD w.data k))).map Prod.fst
        = w.data.map Prod.fst
    exact map_fst_setKey_of_mem w.data k _ hmem
  exact ⟨h1, h2, h3, h3 ▸ hmem⟩

/-- Witness for C9: one key holding a single entry far in the past. -/
theorem c9_expired_key_stays_witness :
    (getWindowData (⟨300, [("s1", [⟨7, -1000⟩])]⟩ : Window Nat) "s1" 0).1 = [] ∧
    lookupD ((getWindowData (⟨300, [("s1", [⟨7, -1000⟩])]⟩ : Window Nat) "s1" 0).2).data
        "s1" = [] ∧
    getAllKeys ((getWindowData (⟨300, [("s1", [⟨7, -1000⟩])]⟩ : Window Nat) "s1" 0).2) =
      getAllKeys (⟨300, [("s1", [⟨7, -1000⟩])]⟩ : Window Nat) ∧
    "s1" ∈ getAllKeys ((getWindowData (⟨300, [("s1", [⟨7, -1000⟩])]⟩ : Window Nat) "s1" 0).2) :=
  c9_expired_key_stays (⟨300, [("s1", [⟨7, -1000⟩])]⟩ : Window Nat) "s1" 0
    (by simp [getAllKeys]) (by simp [lookupD])

end Ecommerce
